import Mathlib

/-!
Formal model of `scrapy_fake_useragent/providers.py`.

The four provider classes are embedded as Lean structures; each `__init__`
and `get_random_ua` method is a pure function translated line by line from
the Python source.  External backends (the `fake_useragent` dataset, the
`faker` generator and the `random_user_agent` catalog library) are modelled
by small interface records; randomness is externalized as an extra `Nat`
argument, Python exceptions as an explicit `PyError` sum, and log calls as
an explicit list of `LogEvent` values returned next to the result.
-/

deriving instance DecidableEq for Except

namespace ScrapyFakeUA

/-- Python `str.upper()` on the ASCII names involved: upper-cases each
character. -/
def pyUpper (s : String) : String := String.mk (s.data.map Char.toUpper)

/-- Python exceptions that the code in `providers.py` can raise or catch. -/
inductive PyError
  | attributeError (name : String)
  | keyError (key : String)
  | indexError
  | configException (filterValue : String)
deriving DecidableEq

/-- Log levels used by the module. -/
inductive LogLevel
  | debug
  | warning
  | error
deriving DecidableEq

/-- Log records emitted by `providers.py`, one constructor per `logger.*`
call site in the source. -/
inductive LogEvent
  | filterNotFound (filterValue : String)
  | poolUndersized (nbUa : Nat)
  | emptyPoolFallback
  | fakerFallback (uaType : String)
deriving DecidableEq

/-- Level of each log call site: `logger.error` in
`RandomUserAgentProvider.__init__`, `logger.warning` and `logger.debug` in
`RandomUserAgentProvider.get_random_ua`, `logger.debug` in
`FakerProvider.get_random_ua`. -/
def LogEvent.level : LogEvent → LogLevel
  | filterNotFound _ => LogLevel.error
  | poolUndersized _ => LogLevel.warning
  | emptyPoolFallback => LogLevel.debug
  | fakerFallback _ => LogLevel.debug

/-- Value stored under a settings key.  Python settings are dynamically
typed; the code reads either a plain string or a mapping from filter
category to filter value, so the model keeps exactly that sum. -/
inductive SettingValue
  | str (s : String)
  | map (m : List (String × String))
deriving DecidableEq

/-- Scrapy settings mapping, restricted to the keys `providers.py` reads.
A field holding `some v` models a key present with value `v`; `none` models
an absent key (so `settings.get(key, d)` is `Option.getD _ d`).  The keys
that the source always treats as strings are typed `Option String`; the
`RANDOMUSERAGENT_RANDOM_UA_TYPE` key keeps the string/mapping sum because
the class-level default for it is a string while the code iterates it as a
mapping. -/
structure Settings where
  USER_AGENT : Option String
  FAKE_USERAGENT_RANDOM_UA_TYPE : Option String
  FAKEUSERAGENT_FALLBACK : Option String
  FAKER_RANDOM_UA_TYPE : Option String
  RANDOMUSERAGENT_RANDOM_UA_TYPE : Option SettingValue
deriving DecidableEq

/-! ## FixedUserAgentProvider -/

/-- State of a `FixedUserAgentProvider` instance: the stored settings
(from `BaseProvider.__init__`) and `self._ua`. -/
structure FixedUserAgentProvider where
  settings : Settings
  ua : String
deriving DecidableEq

/-- `FixedUserAgentProvider.__init__`:
`fixed_ua = settings.get('USER_AGENT', '')` then `self._ua = fixed_ua or ''`
(the `or` keeps a truthy, i.e. nonempty, string and yields the empty string
otherwise). -/
def FixedUserAgentProvider.init (settings : Settings) : FixedUserAgentProvider :=
  { settings := settings,
    ua := if settings.USER_AGENT.getD "" = "" then "" else settings.USER_AGENT.getD "" }

/-- `FixedUserAgentProvider.get_random_ua`: `return self._ua`. -/
def FixedUserAgentProvider.get_random_ua (p : FixedUserAgentProvider) : String :=
  p.ua

/-! ## FakeUserAgentProvider -/

/-- Model of the external `fake_useragent.UserAgent` object: attribute
lookup on the dataset, mapping a UA-type name to a UA string when the
backend resolves it, `none` when attribute resolution fails. -/
structure FakeUAData where
  attrs : String → Option String

/-- State of a `FakeUserAgentProvider` instance. -/
structure FakeUserAgentProvider where
  settings : Settings
  ua_type : String
  ua : FakeUAData

/-- Class constant `FakeUserAgentProvider.DEFAULT_UA_TYPE`. -/
def FakeUserAgentProvider.DEFAULT_UA_TYPE : String := "random"

/-- `FakeUserAgentProvider.__init__`: reads the UA type from settings with
default `DEFAULT_UA_TYPE`, then builds the backend as
`fake_useragent.UserAgent(fallback=fallback)`; the external constructor is
the parameter `mkBackend`, applied to the configured fallback. -/
def FakeUserAgentProvider.init (mkBackend : Option String → FakeUAData)
    (settings : Settings) : FakeUserAgentProvider :=
  { settings := settings,
    ua_type := settings.FAKE_USERAGENT_RANDOM_UA_TYPE.getD FakeUserAgentProvider.DEFAULT_UA_TYPE,
    ua := mkBackend settings.FAKEUSERAGENT_FALLBACK }

/-- `FakeUserAgentProvider.get_random_ua`:
`return getattr(self._ua, self._ua_type)` with no exception handling, so a
failed attribute resolution raises `AttributeError` to the caller. -/
def FakeUserAgentProvider.get_random_ua (p : FakeUserAgentProvider) :
    Except PyError String :=
  match p.ua.attrs p.ua_type with
  | some v => Except.ok v
  | none => Except.error (PyError.attributeError p.ua_type)

/-! ## FakerProvider -/

/-- Model of the external `Faker` generator: named zero-argument generation
methods, `none` when attribute resolution fails.  Each method is a function
of an externalized random seed. -/
structure FakerData where
  attrs : String → Option (Nat → String)

/-- State of a `FakerProvider` instance. -/
structure FakerProvider where
  settings : Settings
  ua : FakerData
  ua_type : String

/-- Class constant `FakerProvider.DEFAULT_UA_TYPE`. -/
def FakerProvider.DEFAULT_UA_TYPE : String := "user_agent"

/-- `FakerProvider.__init__`: `self._ua = Faker()` (the external instance is
the parameter `faker`) and the UA type from settings with default
`DEFAULT_UA_TYPE`. -/
def FakerProvider.init (faker : FakerData) (settings : Settings) : FakerProvider :=
  { settings := settings,
    ua := faker,
    ua_type := settings.FAKER_RANDOM_UA_TYPE.getD FakerProvider.DEFAULT_UA_TYPE }

/-- `FakerProvider.get_random_ua`:
`try: return getattr(self._ua, self._ua_type)()` and on `AttributeError`
a `logger.debug` call followed by
`return getattr(self._ua, self.DEFAULT_UA_TYPE)()` (this second lookup is
not guarded, so its own failure propagates). -/
def FakerProvider.get_random_ua (p : FakerProvider) (r : Nat) :
    Except PyError String × List LogEvent :=
  match p.ua.attrs p.ua_type with
  | some f => (Except.ok (f r), [])
  | none =>
    match p.ua.attrs FakerProvider.DEFAULT_UA_TYPE with
    | some f => (Except.ok (f r), [LogEvent.fakerFallback p.ua_type])
    | none => (Except.error (PyError.attributeError FakerProvider.DEFAULT_UA_TYPE),
               [LogEvent.fakerFallback p.ua_type])

/-! ## RandomUserAgentProvider -/

/-- Member table of one enum class of the external `random_user_agent.params`
module: pairs of (member name, member value); `getattr(Cls, name, None)`
followed by `.value` is `List.lookup`. -/
abbrev EnumClass := List (String × String)

/-- The six enum classes imported from `random_user_agent.params`.  Their
member tables are data of the external library, so they are parameters of
the model. -/
structure ParamsLib where
  HardwareType : EnumClass
  SoftwareType : EnumClass
  SoftwareName : EnumClass
  SoftwareEngine : EnumClass
  OperatingSystem : EnumClass
  Popularity : EnumClass

/-- The `CLASS_MAP` dict literal in `RandomUserAgentProvider.__init__`,
mapping filter-category names to enum classes; a missing key raises
`KeyError`, modelled by `none`. -/
def CLASS_MAP (lib : ParamsLib) (cat : String) : Option EnumClass :=
  if cat = "hardware_types" then some lib.HardwareType
  else if cat = "software_types" then some lib.SoftwareType
  else if cat = "software_names" then some lib.SoftwareName
  else if cat = "software_engines" then some lib.SoftwareEngine
  else if cat = "operating_systems" then some lib.OperatingSystem
  else if cat = "popularity" then some lib.Popularity
  else none

/-- State of the external `random_user_agent.user_agent.UserAgent` catalog
object: its realized candidate pool `self.user_agents` and the `limit`
argument it was constructed with. -/
structure RandomUAData where
  user_agents : List String
  limit : Nat
deriving DecidableEq

/-- Model of the external `random_user_agent.user_agent.UserAgent`
constructor: the library computes the candidates of its database matching
the resolved filter `params` (the abstract function `dataset`) and keeps at
most `limit` of them. -/
def mkUserAgent (dataset : List (String × String) → List String)
    (params : List (String × String)) (limit : Nat) : RandomUAData :=
  { user_agents := (dataset params).take limit, limit := limit }

/-- Model of the external `get_random_user_agent` method:
`random.choice(self.user_agents)` picks the entry at a random index and
raises `IndexError` when the pool is empty; the random index is
externalized as `r` modulo the pool size. -/
def RandomUAData.get_random_user_agent (d : RandomUAData) (r : Nat) :
    Except PyError String :=
  if d.user_agents.isEmpty then Except.error PyError.indexError
  else Except.ok (d.user_agents.getD (r % d.user_agents.length) "")

/-- Attribute surface of the external catalog object, as used by the
fallback `getattr(self._ua, name)()` in `get_random_ua`: the object
resolves its real method name `get_random_user_agent` to a callable; no
attribute of the object has the empty string as its name, so any other
name (in particular the empty one) fails attribute resolution. -/
def RandomUAData.fallbackAttr (d : RandomUAData) (name : String) :
    Option (Nat → Except PyError String) :=
  if name = "get_random_user_agent" then some d.get_random_user_agent else none

/-- State of a `RandomUserAgentProvider` instance: the stored settings,
`self._ua_type` (the raw settings value) and `self._ua` (the catalog). -/
structure RandomUserAgentProvider where
  settings : Settings
  ua_type : SettingValue
  ua : RandomUAData
deriving DecidableEq

/-- Class constant `RandomUserAgentProvider.DEFAULT_UA_TYPE`: the empty
string. -/
def RandomUserAgentProvider.DEFAULT_UA_TYPE : String := ""

/-- The filter-resolution loop of `RandomUserAgentProvider.__init__`:
for each `(filter_cat, filter_value)` pair, `CLASS_MAP[filter_cat]` (a
missing key raises `KeyError` before anything is logged), then
`getattr(cls, filter_value.upper(), None)`; a match contributes
`params[filter_cat] = match.value`, otherwise a `logger.error` call is
followed by `raise Exception(...)`. -/
def resolveParams (lib : ParamsLib) :
    List (String × String) → Except PyError (List (String × String)) × List LogEvent
  | [] => (Except.ok [], [])
  | (filter_cat, filter_value) :: rest =>
    match CLASS_MAP lib filter_cat with
    | none => (Except.error (PyError.keyError filter_cat), [])
    | some cls =>
      match cls.lookup (pyUpper filter_value) with
      | some code =>
        match resolveParams lib rest with
        | (Except.ok params, logs) => (Except.ok ((filter_cat, code) :: params), logs)
        | (Except.error e, logs) => (Except.error e, logs)
      | none =>
        (Except.error (PyError.configException filter_value),
         [LogEvent.filterNotFound filter_value])

/-- `RandomUserAgentProvider.__init__`: `self._ua_type` is the settings
value with the class default (a string) as fallback; the loop
`for filter_cat, filter_value in self._ua_type.items()` requires a mapping,
so a string value raises `AttributeError` for `items`; on success the
catalog is built as `UserAgent(**params, limit=100)`. -/
def RandomUserAgentProvider.init (lib : ParamsLib)
    (dataset : List (String × String) → List String) (settings : Settings) :
    Except PyError RandomUserAgentProvider × List LogEvent :=
  match settings.RANDOMUSERAGENT_RANDOM_UA_TYPE.getD
      (SettingValue.str RandomUserAgentProvider.DEFAULT_UA_TYPE) with
  | SettingValue.str _ => (Except.error (PyError.attributeError "items"), [])
  | SettingValue.map cfg =>
    match resolveParams lib cfg with
    | (Except.ok params, logs) =>
      (Except.ok { settings := settings,
                   ua_type := SettingValue.map cfg,
                   ua := mkUserAgent dataset params 100 }, logs)
    | (Except.error e, logs) => (Except.error e, logs)

/-- `RandomUserAgentProvider.get_random_ua`:
`ua = self._ua.get_random_user_agent()`; on success a warning is logged
when the realized pool holds fewer than 100 entries and `ua` is returned;
an `IndexError` is caught, logged at debug level, and answered by
`return getattr(self._ua, self.DEFAULT_UA_TYPE)()` on the catalog object
(whose own attribute-resolution failure is unguarded). -/
def RandomUserAgentProvider.get_random_ua (p : RandomUserAgentProvider) (r : Nat) :
    Except PyError String × List LogEvent :=
  match p.ua.get_random_user_agent r with
  | Except.ok ua =>
    if p.ua.user_agents.length < 100 then
      (Except.ok ua, [LogEvent.poolUndersized p.ua.user_agents.length])
    else (Except.ok ua, [])
  | Except.error PyError.indexError =>
    match p.ua.fallbackAttr RandomUserAgentProvider.DEFAULT_UA_TYPE with
    | some f => (f r, [LogEvent.emptyPoolFallback])
    | none => (Except.error (PyError.attributeError RandomUserAgentProvider.DEFAULT_UA_TYPE),
               [LogEvent.emptyPoolFallback])
  | Except.error e => (Except.error e, [])

/-! ## The provider family -/

/-- The closed family of provider variants of `providers.py`. -/
inductive Provider
  | fixed (p : FixedUserAgentProvider)
  | fakeUA (p : FakeUserAgentProvider)
  | faker (p : FakerProvider)
  | randomUA (p : RandomUserAgentProvider)

/-- One `get_random_ua()` call on any provider variant, returning the result
together with the post-call instance state.  The post state is rebuilt
field by field from the fields the method body leaves in place: no method
body in the source assigns to any `self` field. -/
def Provider.get_random_ua_step : Provider → Nat →
    (Except PyError String × List LogEvent) × Provider
  | Provider.fixed p, _ =>
    ((Except.ok p.get_random_ua, []),
     Provider.fixed { settings := p.settings, ua := p.ua })
  | Provider.fakeUA p, _ =>
    ((p.get_random_ua, []),
     Provider.fakeUA { settings := p.settings, ua_type := p.ua_type, ua := p.ua })
  | Provider.faker p, r =>
    (p.get_random_ua r,
     Provider.faker { settings := p.settings, ua := p.ua, ua_type := p.ua_type })
  | Provider.randomUA p, r =>
    (p.get_random_ua r,
     Provider.randomUA { settings := p.settings, ua_type := p.ua_type, ua := p.ua })

/-- A sequence of `get_random_ua()` calls, threading the instance state and
collecting each returned value. -/
def Provider.runCalls : Provider → List Nat → List (Except PyError String)
  | _, [] => []
  | p, r :: rs =>
    ((p.get_random_ua_step r).1.1) :: ((p.get_random_ua_step r).2.runCalls rs)

/-! ## Derived predicates -/

/-- Resolution of one configured (category, value) pair, fused from the two
lookups the source performs: `CLASS_MAP[cat]` then
`getattr(cls, value.upper(), None).value`. -/
def resolveOne (lib : ParamsLib) (cv : String × String) : Option String :=
  (CLASS_MAP lib cv.1).bind (fun cls => cls.lookup (pyUpper cv.2))

/-- A configured pair resolves when its category is a `CLASS_MAP` key and
its upper-cased value is a member of that category's enum class. -/
def isResolvable (lib : ParamsLib) (cv : String × String) : Bool :=
  (resolveOne lib cv).isSome

/-- Resolved backend codes collected per category, stated from the spec
wording (resolve each configured value against its category and collect the
resolved backend code keyed by category), to be compared with what
`resolveParams` produces. -/
def specResolvedParams (lib : ParamsLib) (cfg : List (String × String)) :
    List (String × String) :=
  cfg.filterMap (fun cv => (resolveOne lib cv).map (fun code => (cv.1, code)))

/-- The six recognized filter-category names, i.e. the keys of `CLASS_MAP`. -/
def recognizedCategories : List String :=
  ["hardware_types", "software_types", "software_names",
   "software_engines", "operating_systems", "popularity"]

/-! ## Concrete sample data for the closed theorems -/

/-- Sample instantiation of the external `random_user_agent.params` enum
tables.  Only the membership facts the concrete theorems use matter:
`COMPUTER` and `ANDROID` are members of their classes, `TOASTER` is not a
`HardwareType` member. -/
def sampleLib : ParamsLib :=
  { HardwareType := [("COMPUTER", "computer"), ("MOBILE", "mobile"), ("SERVER", "server")],
    SoftwareType := [("WEB_BROWSER", "web-browser")],
    SoftwareName := [("CHROME", "chrome"), ("FIREFOX", "firefox")],
    SoftwareEngine := [("GECKO", "gecko"), ("BLINK", "blink")],
    OperatingSystem := [("WINDOWS", "windows"), ("LINUX", "linux"), ("ANDROID", "android")],
    Popularity := [("POPULAR", "popular")] }

/-- Catalog database in which no entry matches any filter combination: the
realized candidate pool is empty (e.g. conflicting filters such as
ANDROID together with COMPUTER). -/
def emptyDataset : List (String × String) → List String := fun _ => []

/-- Catalog database with three matching entries for every filter
combination. -/
def smallDataset : List (String × String) → List String :=
  fun _ => ["ua-one", "ua-two", "ua-three"]

/-- Settings configuring the filtered-catalog provider with two valid
filters that jointly match nothing in `emptyDataset`. -/
def conflictingFilterSettings : Settings :=
  { USER_AGENT := none,
    FAKE_USERAGENT_RANDOM_UA_TYPE := none,
    FAKEUSERAGENT_FALLBACK := none,
    FAKER_RANDOM_UA_TYPE := none,
    RANDOMUSERAGENT_RANDOM_UA_TYPE :=
      some (SettingValue.map
        [("hardware_types", "COMPUTER"), ("operating_systems", "ANDROID")]) }

/-- Settings in which the filtered-catalog UA type key is absent. -/
def noFilterKeySettings : Settings :=
  { USER_AGENT := none,
    FAKE_USERAGENT_RANDOM_UA_TYPE := none,
    FAKEUSERAGENT_FALLBACK := none,
    FAKER_RANDOM_UA_TYPE := none,
    RANDOMUSERAGENT_RANDOM_UA_TYPE := none }

/-- Filter mapping with one recognized category whose value is not a member
of the corresponding enum class. -/
def toasterCfg : List (String × String) := [("hardware_types", "TOASTER")]

/-- Settings holding `toasterCfg` as the filter mapping. -/
def toasterSettings : Settings :=
  { USER_AGENT := none,
    FAKE_USERAGENT_RANDOM_UA_TYPE := none,
    FAKEUSERAGENT_FALLBACK := none,
    FAKER_RANDOM_UA_TYPE := none,
    RANDOMUSERAGENT_RANDOM_UA_TYPE := some (SettingValue.map toasterCfg) }

/-- Filter mapping whose first pair has an unresolvable value and whose
second pair has an unrecognized category. -/
def mixedBadCfg : List (String × String) :=
  [("hardware_types", "TOASTER"), ("bogus", "X")]

/-- Settings holding `mixedBadCfg` as the filter mapping. -/
def mixedBadSettings : Settings :=
  { USER_AGENT := none,
    FAKE_USERAGENT_RANDOM_UA_TYPE := none,
    FAKEUSERAGENT_FALLBACK := none,
    FAKER_RANDOM_UA_TYPE := none,
    RANDOMUSERAGENT_RANDOM_UA_TYPE := some (SettingValue.map mixedBadCfg) }

/-- Settings whose filter mapping has one valid pair followed by a pair
with an unrecognized category. -/
def unknownCategorySettings : Settings :=
  { USER_AGENT := none,
    FAKE_USERAGENT_RANDOM_UA_TYPE := none,
    FAKEUSERAGENT_FALLBACK := none,
    FAKER_RANDOM_UA_TYPE := none,
    RANDOMUSERAGENT_RANDOM_UA_TYPE :=
      some (SettingValue.map [("hardware_types", "COMPUTER"), ("bogus", "X")]) }

/-- Settings configuring the filtered-catalog provider with one valid
filter. -/
def oneFilterSettings : Settings :=
  { USER_AGENT := none,
    FAKE_USERAGENT_RANDOM_UA_TYPE := none,
    FAKEUSERAGENT_FALLBACK := none,
    FAKER_RANDOM_UA_TYPE := none,
    RANDOMUSERAGENT_RANDOM_UA_TYPE :=
      some (SettingValue.map [("hardware_types", "COMPUTER")]) }

/-- Settings configuring the catalog provider with UA type chrome. -/
def chromeSettings : Settings :=
  { USER_AGENT := none,
    FAKE_USERAGENT_RANDOM_UA_TYPE := some "chrome",
    FAKEUSERAGENT_FALLBACK := none,
    FAKER_RANDOM_UA_TYPE := none,
    RANDOMUSERAGENT_RANDOM_UA_TYPE := none }

/-- Settings configuring the synthetic provider with a nonexistent method
name. -/
def bogusFakerSettings : Settings :=
  { USER_AGENT := none,
    FAKE_USERAGENT_RANDOM_UA_TYPE := none,
    FAKEUSERAGENT_FALLBACK := none,
    FAKER_RANDOM_UA_TYPE := some "bogus_method",
    RANDOMUSERAGENT_RANDOM_UA_TYPE := none }

/-- Sample `fake_useragent` backend: only the attribute named random
resolves, to a fixed UA string; any fallback configuration yields the same
dataset. -/
def sampleFakeUABackend : Option String → FakeUAData :=
  fun _ => { attrs := fun s => if s = "random" then some "catalog-ua" else none }

/-- Sample `Faker` generator: only the method named user_agent exists. -/
def sampleFakerData : FakerData :=
  { attrs := fun s => if s = "user_agent" then some (fun _ => "faker-ua") else none }

/-- Sample filtered-catalog provider instance with a two-entry pool, as
built by a catalog whose database matched only two entries. -/
def twoEntryProvider : RandomUserAgentProvider :=
  { settings := oneFilterSettings,
    ua_type := SettingValue.map [("hardware_types", "COMPUTER")],
    ua := { user_agents := ["ua-one", "ua-two"], limit := 100 } }

/-- Filtered-catalog provider instance as built by `init` from
`oneFilterSettings` over `smallDataset`. -/
def smallPoolProvider : RandomUserAgentProvider :=
  { settings := oneFilterSettings,
    ua_type := SettingValue.map [("hardware_types", "COMPUTER")],
    ua := { user_agents := ["ua-one", "ua-two", "ua-three"], limit := 100 } }

/-! ## Helper lemmas about the filter-resolution loop -/

theorem resolveParams_all_ok (lib : ParamsLib) (cfg : List (String × String))
    (h : ∀ cv ∈ cfg, isResolvable lib cv = true) :
    resolveParams lib cfg = (Except.ok (specResolvedParams lib cfg), []) := by
  induction cfg with
  | nil => rfl
  | cons cv rest ih =>
    obtain ⟨c, v⟩ := cv
    have hhead : isResolvable lib (c, v) = true := h (c, v) (List.mem_cons_self _ _)
    rcases hc : CLASS_MAP lib c with _ | cls
    · simp [isResolvable, resolveOne, hc] at hhead
    · rcases hl : cls.lookup (pyUpper v) with _ | code
      · simp [isResolvable, resolveOne, hc, hl] at hhead
      · have hrest : ∀ cv ∈ rest, isResolvable lib cv = true :=
          fun cv hm => h cv (List.mem_cons_of_mem _ hm)
        simp only [resolveParams, hc, hl, ih hrest]
        simp [specResolvedParams, List.filterMap_cons, resolveOne, hc, hl]

theorem resolveParams_exists_err (lib : ParamsLib) (cfg : List (String × String))
    (hcat : ∀ cv ∈ cfg, (CLASS_MAP lib cv.1).isSome = true)
    (h : ¬ ∀ cv ∈ cfg, isResolvable lib cv = true) :
    ∃ v, resolveParams lib cfg
      = (Except.error (PyError.configException v), [LogEvent.filterNotFound v]) := by
  induction cfg with
  | nil => exact absurd (by simp) h
  | cons cv rest ih =>
    obtain ⟨c, v⟩ := cv
    rcases hc : CLASS_MAP lib c with _ | cls
    · have := hcat (c, v) (List.mem_cons_self _ _)
      simp [hc] at this
    · rcases hl : cls.lookup (pyUpper v) with _ | code
      · exact ⟨v, by simp [resolveParams, hc, hl]⟩
      · have hres : isResolvable lib (c, v) = true := by
          simp [isResolvable, resolveOne, hc, hl]
        have hrest : ¬ ∀ cv ∈ rest, isResolvable lib cv = true := by
          intro hall
          refine h (fun cv hm => ?_)
          rcases List.mem_cons.mp hm with h1 | h2
          · rw [h1]; exact hres
          · exact hall cv h2
        obtain ⟨w, hw⟩ := ih (fun cv hm => hcat cv (List.mem_cons_of_mem _ hm)) hrest
        exact ⟨w, by simp [resolveParams, hc, hl, hw]⟩

theorem CLASS_MAP_eq_none (lib : ParamsLib) (c : String)
    (h : c ∉ recognizedCategories) : CLASS_MAP lib c = none := by
  simp only [recognizedCategories, List.mem_cons, List.mem_singleton, not_or] at h
  obtain ⟨h1, h2, h3, h4, h5, h6, -⟩ := h
  simp [CLASS_MAP, h1, h2, h3, h4, h5, h6]

theorem resolveParams_keyError (lib : ParamsLib) (pre : List (String × String))
    (c v : String) (rest : List (String × String))
    (hpre : ∀ cv ∈ pre, isResolvable lib cv = true)
    (hc : CLASS_MAP lib c = none) :
    resolveParams lib (pre ++ (c, v) :: rest)
      = (Except.error (PyError.keyError c), []) := by
  induction pre with
  | nil => simp [resolveParams, hc]
  | cons hd tl ih =>
    obtain ⟨c2, v2⟩ := hd
    have hhead : isResolvable lib (c2, v2) = true := hpre (c2, v2) (List.mem_cons_self _ _)
    rcases hc2 : CLASS_MAP lib c2 with _ | cls
    · simp [isResolvable, resolveOne, hc2] at hhead
    · rcases hl2 : cls.lookup (pyUpper v2) with _ | code
      · simp [isResolvable, resolveOne, hc2, hl2] at hhead
      · have htl : ∀ cv ∈ tl, isResolvable lib cv = true :=
          fun cv hm => hpre cv (List.mem_cons_of_mem _ hm)
        simp [resolveParams, hc2, hl2, ih htl]

/-! ## Claim theorems -/

/-- C5: for every FixedProvider, every call to `get_random_ua()` returns the
string configured under the `USER_AGENT` key, and the empty string when that
key is absent from the settings mapping; across any sequence of calls the
result is the same on each call, with no failure mode. -/
theorem runCalls_fixed (q : FixedUserAgentProvider) (rs : List Nat) :
    Provider.runCalls (Provider.fixed q) rs = rs.map (fun _ => Except.ok q.ua) := by
  induction rs with
  | nil => rfl
  | cons r rs ih =>
    have hstep : Provider.runCalls (Provider.fixed q) (r :: rs)
        = Except.ok q.ua :: Provider.runCalls (Provider.fixed q) rs := rfl
    rw [hstep, ih, List.map_cons]

theorem claim_C5_fixed_provider (st : Settings) (rs : List Nat) :
    Provider.runCalls (Provider.fixed (FixedUserAgentProvider.init st)) rs
      = rs.map (fun _ => Except.ok (st.USER_AGENT.getD "")) := by
  have hua : (FixedUserAgentProvider.init st).ua = st.USER_AGENT.getD "" := by
    unfold FixedUserAgentProvider.init
    dsimp only
    split
    · next h => exact h.symm
    · rfl
  simp [runCalls_fixed, hua]

/-- C9: for every provider variant and every constructed instance, a
`get_random_ua()` call leaves all fields of the instance unchanged: the
post-call state equals the pre-call state. -/
theorem claim_C9_no_mutation (p : Provider) (r : Nat) :
    (Provider.get_random_ua_step p r).2 = p := by
  cases p <;> rfl

/-- C3: for CatalogProvider, `get_random_ua()` returns the value of the
attribute named by the configured UA type on the backend dataset; when that
name is not a valid backend attribute, the attribute-resolution failure
propagates to the caller instead of being caught or defaulted. -/
theorem claim_C3_catalog_attribute (mkBackend : Option String → FakeUAData)
    (st : Settings) (t : String)
    (hset : st.FAKE_USERAGENT_RANDOM_UA_TYPE = some t) :
    ((mkBackend st.FAKEUSERAGENT_FALLBACK).attrs t = none →
      (FakeUserAgentProvider.init mkBackend st).get_random_ua
        = Except.error (PyError.attributeError t))
    ∧ (∀ v, (mkBackend st.FAKEUSERAGENT_FALLBACK).attrs t = some v →
      (FakeUserAgentProvider.init mkBackend st).get_random_ua = Except.ok v) := by
  constructor
  · intro h
    simp [FakeUserAgentProvider.init, FakeUserAgentProvider.get_random_ua, hset, h]
  · intro v h
    simp [FakeUserAgentProvider.init, FakeUserAgentProvider.get_random_ua, hset, h]

/-- Witness for C3 at a concrete backend and settings: the attribute named
chrome does not resolve on `sampleFakeUABackend`, and the failure reaches
the caller as an `AttributeError`. -/
theorem claim_C3_catalog_attribute_witness :
    (FakeUserAgentProvider.init sampleFakeUABackend chromeSettings).get_random_ua
      = Except.error (PyError.attributeError "chrome") :=
  (claim_C3_catalog_attribute sampleFakeUABackend chromeSettings "chrome" rfl).1 rfl

/-- C4: for SyntheticProvider configured with a method name the backend does
not support, every `get_random_ua()` call logs at debug level and returns
the same value as a SyntheticProvider configured explicitly with the
default method name user_agent, and the call does not fail outward (the
default method being present on the backend). -/
theorem claim_C4_faker_fallback (b : FakerData) (st : Settings) (m : String)
    (f : Nat → String) (r : Nat)
    (hset : st.FAKER_RANDOM_UA_TYPE = some m)
    (hm : b.attrs m = none)
    (hd : b.attrs "user_agent" = some f) :
    (FakerProvider.init b st).get_random_ua r
        = (Except.ok (f r), [LogEvent.fakerFallback m])
    ∧ ((FakerProvider.init b
          { st with FAKER_RANDOM_UA_TYPE := some "user_agent" }).get_random_ua r).1
        = Except.ok (f r)
    ∧ (LogEvent.fakerFallback m).level = LogLevel.debug := by
  refine ⟨?_, ?_, rfl⟩
  · simp [FakerProvider.init, FakerProvider.get_random_ua,
      FakerProvider.DEFAULT_UA_TYPE, hset, hm, hd]
  · simp [FakerProvider.init, FakerProvider.get_random_ua, hd]

/-- Witness for C4 at a concrete backend: the method name bogus_method does
not exist on `sampleFakerData`, and the call returns the default method
value with a debug log. -/
theorem claim_C4_faker_fallback_witness :
    (FakerProvider.init sampleFakerData bogusFakerSettings).get_random_ua 0
      = (Except.ok "faker-ua", [LogEvent.fakerFallback "bogus_method"]) :=
  (claim_C4_faker_fallback sampleFakerData bogusFakerSettings "bogus_method"
    (fun _ => "faker-ua") 0 rfl rfl rfl).1

/-- C2: FilteredCatalogProvider construction fails exactly when some
configured (category, value) pair is unresolvable: with every configured
category recognized, if some upper-cased value is not a member of its
category's enum class then construction logs an error-level event and
raises the fatal configuration exception, and if every pair resolves then
construction succeeds, collecting the resolved backend code for each
category into the catalog parameters. -/
theorem claim_C2_filter_resolution (lib : ParamsLib)
    (dataset : List (String × String) → List String) (st : Settings)
    (cfg : List (String × String))
    (hset : st.RANDOMUSERAGENT_RANDOM_UA_TYPE = some (SettingValue.map cfg))
    (hcat : ∀ cv ∈ cfg, (CLASS_MAP lib cv.1).isSome = true)
    (_hnd : (cfg.map Prod.fst).Nodup) :
    ((¬ ∀ cv ∈ cfg, isResolvable lib cv = true) →
      ∃ v, RandomUserAgentProvider.init lib dataset st
          = (Except.error (PyError.configException v), [LogEvent.filterNotFound v])
        ∧ (LogEvent.filterNotFound v).level = LogLevel.error)
    ∧ ((∀ cv ∈ cfg, isResolvable lib cv = true) →
      RandomUserAgentProvider.init lib dataset st
        = (Except.ok { settings := st,
                       ua_type := SettingValue.map cfg,
                       ua := mkUserAgent dataset (specResolvedParams lib cfg) 100 }, [])) := by
  constructor
  · intro hbad
    obtain ⟨w, hw⟩ := resolveParams_exists_err lib cfg hcat hbad
    exact ⟨w, by simp [RandomUserAgentProvider.init, hset, hw], rfl⟩
  · intro hgood
    simp [RandomUserAgentProvider.init, hset, resolveParams_all_ok lib cfg hgood]

/-- Witness for C2 at a concrete configuration: the value TOASTER is not a
HardwareType member, so construction aborts with the fatal configuration
exception after one error-level log event. -/
theorem claim_C2_filter_resolution_witness :
    ∃ v, RandomUserAgentProvider.init sampleLib emptyDataset toasterSettings
        = (Except.error (PyError.configException v), [LogEvent.filterNotFound v])
      ∧ (LogEvent.filterNotFound v).level = LogLevel.error :=
  (claim_C2_filter_resolution sampleLib emptyDataset toasterSettings toasterCfg
    rfl (by decide) (by decide)).1 (by decide)

/-- C7: every successfully constructed FilteredCatalogProvider built its
backend catalog with the cap instruction `limit=100`, and the realized
candidate pool holds at most 100 entries. -/
theorem claim_C7_pool_cap (lib : ParamsLib)
    (dataset : List (String × String) → List String) (st : Settings)
    (p : RandomUserAgentProvider) (logs : List LogEvent)
    (h : RandomUserAgentProvider.init lib dataset st = (Except.ok p, logs)) :
    p.ua.limit = 100 ∧ p.ua.user_agents.length ≤ 100 := by
  unfold RandomUserAgentProvider.init at h
  split at h
  · simp at h
  · next cfg _ =>
    split at h
    · next params logs2 _ =>
      rw [Prod.mk.injEq] at h
      obtain ⟨h1, -⟩ := h
      rw [Except.ok.injEq] at h1
      subst h1
      refine ⟨rfl, ?_⟩
      simp [mkUserAgent, List.length_take]
    · simp at h

/-- Witness for C7: a concrete successful construction over a three-entry
database yields a catalog with `limit = 100` and a pool of at most 100
entries. -/
theorem claim_C7_pool_cap_witness :
    smallPoolProvider.ua.limit = 100
    ∧ smallPoolProvider.ua.user_agents.length ≤ 100 :=
  claim_C7_pool_cap sampleLib smallDataset oneFilterSettings smallPoolProvider []
    (by decide)

/-- C8: for FilteredCatalogProvider, whenever the backend pick succeeds and
the realized pool holds fewer than 100 entries, `get_random_ua()` emits a
warning-level log event and still returns the picked entry unchanged. -/
theorem claim_C8_undersized_pool_advisory (p : RandomUserAgentProvider) (r : Nat)
    (ua : String)
    (hpick : p.ua.get_random_user_agent r = Except.ok ua)
    (hlen : p.ua.user_agents.length < 100) :
    p.get_random_ua r
        = (Except.ok ua, [LogEvent.poolUndersized p.ua.user_agents.length])
    ∧ (LogEvent.poolUndersized p.ua.user_agents.length).level = LogLevel.warning := by
  constructor
  · simp [RandomUserAgentProvider.get_random_ua, hpick, hlen]
  · rfl

/-- Witness for C8: on a two-entry pool the pick succeeds, the entry is
returned unchanged and the undersized-pool warning is logged. -/
theorem claim_C8_undersized_pool_advisory_witness :
    twoEntryProvider.get_random_ua 0
        = (Except.ok "ua-one",
           [LogEvent.poolUndersized twoEntryProvider.ua.user_agents.length])
    ∧ (LogEvent.poolUndersized twoEntryProvider.ua.user_agents.length).level
        = LogLevel.warning :=
  claim_C8_undersized_pool_advisory twoEntryProvider 0 "ua-one" (by decide) (by decide)

/-- C1 (code bug): a FilteredCatalogProvider is successfully constructed
from valid but jointly conflicting filters, its candidate pool is empty,
and `get_random_ua()` does NOT return a string: the `IndexError` from the
empty pool is caught and logged at debug level, but the fallback
`getattr(self._ua, self.DEFAULT_UA_TYPE)()` looks up the empty attribute
name on the catalog object, which itself raises `AttributeError` to the
caller — contradicting the claim that the failure is resolved internally
and no error propagates. -/
theorem claim_C1_empty_pool_crash :
    (RandomUserAgentProvider.init sampleLib emptyDataset
        conflictingFilterSettings).1.map (fun p => p.get_random_ua 0)
      = Except.ok (Except.error (PyError.attributeError ""), [LogEvent.emptyPoolFallback])
    ∧ LogEvent.emptyPoolFallback.level = LogLevel.debug
    ∧ RandomUserAgentProvider.DEFAULT_UA_TYPE = "" := by
  refine ⟨by decide, rfl, rfl⟩

/-- C6 (code bug): when the filtered-catalog UA type key is absent from the
settings mapping, the default used is `DEFAULT_UA_TYPE`, which is the empty
STRING rather than an empty mapping, and construction does not succeed: the
loop calls `.items()` on that string and raises `AttributeError` with no
provider built — contradicting the claim that the default is `{}` and
construction succeeds with an unfiltered pool. -/
theorem claim_C6_default_type_crash :
    RandomUserAgentProvider.init sampleLib emptyDataset noFilterKeySettings
      = (Except.error (PyError.attributeError "items"), [])
    ∧ RandomUserAgentProvider.DEFAULT_UA_TYPE = "" := by
  refine ⟨by decide, rfl⟩

/-- C10 counterexample: a filter mapping that contains the unrecognized
category bogus but whose first pair already fails value resolution.  On it,
construction fails through the documented fatal-configuration-error path
with an error-level log event, not through an unguarded key-lookup failure
before any logging — so the claim, quantified over every mapping containing
an unrecognized category, is false. -/
theorem claim_C10_counterexample :
    ("bogus", "X") ∈ mixedBadCfg
    ∧ ("bogus" ∈ recognizedCategories) = False
    ∧ RandomUserAgentProvider.init sampleLib emptyDataset mixedBadSettings
        = (Except.error (PyError.configException "TOASTER"),
           [LogEvent.filterNotFound "TOASTER"])
    ∧ (∀ k, PyError.configException "TOASTER" ≠ PyError.keyError k)
    ∧ (LogEvent.filterNotFound "TOASTER").level = LogLevel.error := by
  refine ⟨by decide, by decide, by decide, fun k h => PyError.noConfusion h, rfl⟩

/-- C10 (amended): for every settings mapping whose filter mapping contains
a category key that is not one of the six recognized categories AND in
which every pair preceding that key resolves successfully, construction
fails with an unguarded `KeyError` naming the category, raised before any
error is logged (the log list is empty), not via the documented
fatal-configuration-error path. -/
theorem claim_C10_unknown_category_keyerror (lib : ParamsLib)
    (dataset : List (String × String) → List String) (st : Settings)
    (pre : List (String × String)) (c v : String)
    (rest : List (String × String))
    (hset : st.RANDOMUSERAGENT_RANDOM_UA_TYPE
      = some (SettingValue.map (pre ++ (c, v) :: rest)))
    (hc : c ∉ recognizedCategories)
    (hpre : ∀ cv ∈ pre, isResolvable lib cv = true) :
    RandomUserAgentProvider.init lib dataset st
      = (Except.error (PyError.keyError c), []) := by
  simp only [RandomUserAgentProvider.init, hset, Option.getD_some]
  rw [resolveParams_keyError lib pre c v rest hpre (CLASS_MAP_eq_none lib c hc)]

/-- Witness for the amended C10: a mapping whose valid pair precedes the
unrecognized category bogus makes construction fail with `KeyError` and no
log event. -/
theorem claim_C10_unknown_category_keyerror_witness :
    RandomUserAgentProvider.init sampleLib emptyDataset unknownCategorySettings
      = (Except.error (PyError.keyError "bogus"), []) :=
  claim_C10_unknown_category_keyerror sampleLib emptyDataset
    unknownCategorySettings [("hardware_types", "COMPUTER")] "bogus" "X" []
    rfl (by decide) (by decide)

end ScrapyFakeUA
